import Mathlib

/-!
Verification development for the statistical-estimates tutorial notebook
(src/tutorials/statisticalEstimates/_0.ipynb).

The notebook simulates five cohorts of employers.  For each cohort it draws
1000 four-dimensional vectors with np.random.multivariate_normal (mean zero,
a hard-coded correlation matrix), wraps them in a pandas DataFrame, attaches
a cohort label, and attaches integer firm sizes drawn with np.random.randint.
The five frames are then concatenated with pd.concat.  The regression and
visualization cells of the notebook are empty placeholders.

The embedding below models:
  * a DataFrame as a column list plus a list of rows (a row maps a column
    name to a cell holding a rational, a string, or null / NaN);
  * the numpy global random generator as a pair of abstract streams together
    with an explicit consumption counter: `Gen.mvn m r k` is the k-th
    multivariate-normal draw with mean `m` and covariance `r`, and
    `Gen.ints k` is the k-th raw draw feeding np.random.randint.  numpy
    draws from implicit module-level state; the embedding makes that state
    an explicit argument threaded through the script in call order;
  * np.random.randint(low, high, size) as `size` values `low + raw % (high - low)`,
    which matches the library contract that results lie in [low, high);
  * np.random.multivariate_normal(mean, cov, size) as `size` consecutive
    draws of the generator multivariate-normal stream for that mean and
    covariance.  With the default check_valid="warn" the library returns
    samples even for a non-symmetric or non-positive-semi-definite matrix
    (at most emitting a warning), so the model performs no validity check;
  * pd.concat(frames, axis=0) as row concatenation over the union of the
    column lists, filling null for columns a frame lacks; called on an
    empty list, pandas raises ValueError (no objects to concatenate), so
    the assembler `DatasetAssembler.assemble` returns an Option that is
    none exactly on the empty list and otherwise wraps the concatenation
    core `Frame.concat`.

The notebook cell for large firms reads `df_501_.loc[:, "firm_size"] = ...`
although it builds `df_101_500`; in the recorded run `df_501_` already
existed from an earlier execution of the very-large-firms cell, so the
assignment lands on that stale frame and is then discarded when the
very-large-firms cell rebuilds `df_501_` from scratch.  The script model
therefore takes the pre-existing `df_501_` frame as an explicit parameter;
its value never influences any result.
-/

/-- The six column names appearing in the DataFrames of the notebook. -/
inductive Col where
  | job_sat
  | int_qui
  | age
  | org_tnr
  | cohort
  | firm_size
deriving DecidableEq

/-- A cell of a DataFrame: a numeric value, a string, or null (NaN). -/
inductive Cell where
  | num (q : ℚ)
  | str (s : String)
  | null
deriving DecidableEq

/-- A pandas DataFrame: an ordered list of columns and a list of rows.
A row is a total function from column names to cells; it returns
`Cell.null` on columns outside the column list of the frame. -/
structure Frame where
  cols : List Col
  rows : List (Col → Cell)

/-- The model of the numpy global random generator: an abstract stream of
multivariate-normal draws (indexed by mean, covariance and position) and an
abstract stream of raw non-negative integer draws.  Positions are consumed
in call order by the script. -/
structure Gen where
  mvn : (Fin 4 → ℚ) → Matrix (Fin 4) (Fin 4) ℚ → Nat → Fin 4 → ℚ
  ints : Nat → Nat

/-- Model of np.random.multivariate_normal(mean, cov, size) starting at
stream position `pos`: the list of `size` draws and the advanced position.
No validity check is performed on `cov`: with the numpy default
check_valid="warn" the call returns samples for any matrix. -/
def npMultivariateNormal (g : Gen) (m : Fin 4 → ℚ) (cov : Matrix (Fin 4) (Fin 4) ℚ)
    (size pos : Nat) : List (Fin 4 → ℚ) × Nat :=
  ((List.range size).map fun k => g.mvn m cov (pos + k), pos + size)

/-- Model of np.random.randint(low, high, size) starting at stream position
`pos`: `size` integers in [low, high) and the advanced position. -/
def npRandint (g : Gen) (low high size pos : Nat) : List Nat × Nat :=
  ((List.range size).map fun k => low + g.ints (pos + k) % (high - low), pos + size)

/-- Source: `num_samples = 1000`. -/
def num_samples : Nat := 1000

/-- Source: `mu = np.repeat(0, 4)`. -/
def mu : Fin 4 → ℚ := fun _ => 0

/-- Source: the micro-firms covariance matrix `r` (cell under "Micro firms"). -/
def r_1_5 : Matrix (Fin 4) (Fin 4) ℚ :=
  !![1.00, -0.40, -0.03, 0.11;
     -0.40, 1.00, -0.05, -0.09;
     -0.03, -0.05, 1.00, 0.05;
     0.11, -0.09, 0.05, 1.00]

/-- Source: the small-firms covariance matrix `r` (cell under "Small firms"). -/
def r_6_25 : Matrix (Fin 4) (Fin 4) ℚ :=
  !![1.00, -0.30, -0.03, 0.11;
     -0.30, 1.00, -0.05, -0.09;
     -0.03, -0.05, 1.00, 0.05;
     0.11, -0.09, 0.05, 1.00]

/-- Source: the medium-firms covariance matrix `r` (cell under "Medium firms"). -/
def r_26_100 : Matrix (Fin 4) (Fin 4) ℚ :=
  !![1.00, -0.25, -0.03, 0.11;
     -0.25, 1.00, -0.05, -0.09;
     -0.03, -0.05, 1.00, 0.05;
     0.11, -0.09, 0.05, 1.00]

/-- Source: the large-firms covariance matrix `r` (cell under "Large firms"). -/
def r_101_500 : Matrix (Fin 4) (Fin 4) ℚ :=
  !![1.00, -0.20, -0.03, 0.11;
     -0.20, 1.00, -0.05, -0.09;
     -0.03, -0.05, 1.00, 0.05;
     0.11, -0.09, 0.05, 1.00]

/-- Source: the very-large-firms covariance matrix `r` (cell under "Very large firms"). -/
def r_501_ : Matrix (Fin 4) (Fin 4) ℚ :=
  !![1.00, -0.15, -0.03, 0.11;
     -0.15, 1.00, -0.05, -0.09;
     -0.03, -0.05, 1.00, 0.05;
     0.11, -0.09, 0.05, 1.00]

/-- The five hard-coded correlation matrices, in notebook order. -/
def correlationSpecs : List (Matrix (Fin 4) (Fin 4) ℚ) :=
  [r_1_5, r_6_25, r_26_100, r_101_500, r_501_]

/-- Cohort label written by the micro-firms cell. -/
def microLabel : String := "micro"

/-- Cohort label written by both the small-firms cell and the large-firms cell. -/
def largeLabel : String := "large"

/-- Cohort label written by the medium-firms cell. -/
def mediumLabel : String := "medium"

/-- Cohort label written by the very-large-firms cell. -/
def veryLargeLabel : String := "very large"

/-- A label that no cell of the notebook ever writes. -/
def smallLabel : String := "small"

/-- A row of `pd.DataFrame(vectors, columns=names)`: the four numeric columns
hold the components of the drawn vector; the remaining columns are null. -/
def mkRow (v : Fin 4 → ℚ) : Col → Cell
  | Col.job_sat => Cell.num (v 0)
  | Col.int_qui => Cell.num (v 1)
  | Col.age => Cell.num (v 2)
  | Col.org_tnr => Cell.num (v 3)
  | Col.cohort => Cell.null
  | Col.firm_size => Cell.null

/-- Model of `pd.DataFrame(vectors, columns=names)`. -/
def mkFrame (vs : List (Fin 4 → ℚ)) : Frame :=
  { cols := [Col.job_sat, Col.int_qui, Col.age, Col.org_tnr],
    rows := vs.map mkRow }

/-- Model of `df.loc[:, c] = values` with a per-row list of values.  The
column is appended if absent; lengths agree at every use site. -/
def Frame.setCol (f : Frame) (c : Col) (vals : List Cell) : Frame :=
  { cols := if c ∈ f.cols then f.cols else f.cols ++ [c],
    rows := List.zipWith (fun r v => Function.update r c v) f.rows vals }

/-- Model of `df.loc[:, c] = scalar` (broadcast assignment). -/
def Frame.setColConst (f : Frame) (c : Col) (v : Cell) : Frame :=
  { cols := if c ∈ f.cols then f.cols else f.cols ++ [c],
    rows := f.rows.map fun r => Function.update r c v }

/-- Union of the column lists of several frames, preserving first appearance
order, as pd.concat computes the result columns. -/
def unionCols (fs : List Frame) : List Col :=
  fs.foldl (fun acc f => acc ++ f.cols.filter (fun c => decide (c ∉ acc))) []

/-- The concatenation core of `pd.concat(fs, axis=0)` for the lists it
accepts: rows are concatenated in order; a row coming from a frame that
lacks one of the result columns carries null there.  Mismatched column
sets are aligned silently.  pandas rejects the empty list before reaching
this alignment; that error path lives in `DatasetAssembler.assemble`,
while the notebook call site passes five frames and lands here. -/
def Frame.concat (fs : List Frame) : Frame :=
  { cols := unionCols fs,
    rows := (fs.map fun f => f.rows.map fun r c =>
      if c ∈ f.cols then r c else Cell.null).flatten }

/-- Model of `pd.concat(fs, axis=0)` including its error path: on an empty
list pandas raises ValueError (no objects to concatenate), modelled as
none; on a non-empty list it returns the aligned concatenation. -/
def DatasetAssembler.assemble (fs : List Frame) : Option Frame :=
  if fs.isEmpty then none else some (Frame.concat fs)

/-- A cohort as configured in the notebook: label, firm-size range
[firmSizeMin, firmSizeMax), correlation matrix and sample count
(spec section 3). -/
structure Cohort where
  label : String
  firmSizeMin : Nat
  firmSizeMax : Nat
  correlationSpec : Matrix (Fin 4) (Fin 4) ℚ
  sampleCount : Nat

/-- The micro-firms cohort: randint(low=1, high=5). -/
def cohort_1_5 : Cohort :=
  { label := microLabel, firmSizeMin := 1, firmSizeMax := 5,
    correlationSpec := r_1_5, sampleCount := num_samples }

/-- The small-firms cohort; the notebook labels it "large". -/
def cohort_6_25 : Cohort :=
  { label := largeLabel, firmSizeMin := 6, firmSizeMax := 25,
    correlationSpec := r_6_25, sampleCount := num_samples }

/-- The medium-firms cohort. -/
def cohort_26_100 : Cohort :=
  { label := mediumLabel, firmSizeMin := 26, firmSizeMax := 100,
    correlationSpec := r_26_100, sampleCount := num_samples }

/-- The large-firms cohort: labelled "large", range [101, 500). -/
def cohort_101_500 : Cohort :=
  { label := largeLabel, firmSizeMin := 101, firmSizeMax := 500,
    correlationSpec := r_101_500, sampleCount := num_samples }

/-- The very-large-firms cohort. -/
def cohort_501_ : Cohort :=
  { label := veryLargeLabel, firmSizeMin := 501, firmSizeMax := 2000,
    correlationSpec := r_501_, sampleCount := num_samples }

/-- The per-cohort generation block of the notebook, parameterized by the
cohort (spec section 4.1 calls this CohortSampler.sample).  Translated from
the micro-firms cell: draw sampleCount vectors with
np.random.multivariate_normal(mu, r, size), wrap them in a DataFrame, set
the cohort column to the label, then draw sampleCount integers with
np.random.randint(firmSizeMin, firmSizeMax, size) into the firm_size
column.  Returns the frame and the advanced stream position. -/
def CohortSampler.sample (c : Cohort) (g : Gen) (pos : Nat) : Frame × Nat :=
  let vp := npMultivariateNormal g mu c.correlationSpec c.sampleCount pos
  let f0 := Frame.setColConst (mkFrame vp.1) Col.cohort (Cell.str c.label)
  let up := npRandint g c.firmSizeMin c.firmSizeMax c.sampleCount vp.2
  (Frame.setCol f0 Col.firm_size (up.1.map fun u : Nat => Cell.num (u : ℚ)), up.2)

/-- The final frames produced by the notebook run. -/
structure ScriptResult where
  df_1_5 : Frame
  df_6_25 : Frame
  df_26_100 : Frame
  df_101_500 : Frame
  df_501_ : Frame
  df : Frame

/-- The data-simulation cells of the notebook in execution order, threading
the numpy stream position through every call.  The large-firms cell builds
`df_101_500` and sets its cohort label but assigns its firm-size draw to
`df_501_` (the frame left over from an earlier execution of the
very-large-firms cell, passed here as `df_501_prev`); that assignment is
discarded when the very-large-firms cell rebuilds `df_501_`.  Finally
`df = pd.concat([df_1_5, df_6_25, df_26_100, df_101_500, df_501_], axis=0)`. -/
def runScript (g : Gen) (df_501_prev : Frame) : ScriptResult :=
  let s1 := CohortSampler.sample cohort_1_5 g 0
  let s2 := CohortSampler.sample cohort_6_25 g s1.2
  let s3 := CohortSampler.sample cohort_26_100 g s2.2
  let vp4 := npMultivariateNormal g mu r_101_500 num_samples s3.2
  let d4 := Frame.setColConst (mkFrame vp4.1) Col.cohort (Cell.str largeLabel)
  let up4 := npRandint g 101 500 num_samples vp4.2
  let _discarded := Frame.setCol df_501_prev Col.firm_size (up4.1.map fun u : Nat => Cell.num (u : ℚ))
  let s5 := CohortSampler.sample cohort_501_ g up4.2
  { df_1_5 := s1.1, df_6_25 := s2.1, df_26_100 := s3.1,
    df_101_500 := d4, df_501_ := s5.1,
    df := Frame.concat [s1.1, s2.1, s3.1, d4, s5.1] }

/-- Explicit description of row `k` of a per-cohort frame produced by
`CohortSampler.sample c g pos`: the four numeric columns hold the
components of the k-th multivariate-normal draw, the cohort column holds
the label, and the firm-size column holds the k-th randint draw. -/
def sampleRow (g : Gen) (c : Cohort) (pos k : Nat) : Col → Cell
  | Col.job_sat => Cell.num (g.mvn mu c.correlationSpec (pos + k) 0)
  | Col.int_qui => Cell.num (g.mvn mu c.correlationSpec (pos + k) 1)
  | Col.age => Cell.num (g.mvn mu c.correlationSpec (pos + k) 2)
  | Col.org_tnr => Cell.num (g.mvn mu c.correlationSpec (pos + k) 3)
  | Col.cohort => Cell.str c.label
  | Col.firm_size =>
      Cell.num ((c.firmSizeMin + g.ints (pos + c.sampleCount + k) %
        (c.firmSizeMax - c.firmSizeMin) : Nat) : ℚ)

/-- Explicit description of row `k` of the large-firms frame `df_101_500`:
numeric draws and a cohort label, but no firm-size value. -/
def mvnCohortRow (g : Gen) (r : Matrix (Fin 4) (Fin 4) ℚ) (label : String)
    (pos k : Nat) : Col → Cell
  | Col.job_sat => Cell.num (g.mvn mu r (pos + k) 0)
  | Col.int_qui => Cell.num (g.mvn mu r (pos + k) 1)
  | Col.age => Cell.num (g.mvn mu r (pos + k) 2)
  | Col.org_tnr => Cell.num (g.mvn mu r (pos + k) 3)
  | Col.cohort => Cell.str label
  | Col.firm_size => Cell.null

lemma zipWith_map_same {α β γ δ : Type _} (f : β → γ → δ) (F : α → β) (G : α → γ)
    (l : List α) :
    List.zipWith f (l.map F) (l.map G) = l.map fun a => f (F a) (G a) := by
  rw [List.zipWith_map, List.zipWith_same]

lemma sample_fst_rows (c : Cohort) (g : Gen) (pos : Nat) :
    (CohortSampler.sample c g pos).1.rows
      = (List.range c.sampleCount).map (sampleRow g c pos) := by
  simp only [CohortSampler.sample, npMultivariateNormal, npRandint, mkFrame,
    Frame.setColConst, Frame.setCol, List.map_map]
  rw [zipWith_map_same]
  refine List.map_congr_left fun k _ => ?_
  funext col
  cases col <;> simp [sampleRow, mkRow, Function.update, Function.comp]

lemma sample_fst_cols (c : Cohort) (g : Gen) (pos : Nat) :
    (CohortSampler.sample c g pos).1.cols
      = [Col.job_sat, Col.int_qui, Col.age, Col.org_tnr, Col.cohort, Col.firm_size] := rfl

lemma sample_snd (c : Cohort) (g : Gen) (pos : Nat) :
    (CohortSampler.sample c g pos).2 = pos + c.sampleCount + c.sampleCount := rfl

lemma runScript_df_1_5 (g : Gen) (prev : Frame) :
    (runScript g prev).df_1_5 = (CohortSampler.sample cohort_1_5 g 0).1 := rfl

lemma runScript_df_6_25 (g : Gen) (prev : Frame) :
    (runScript g prev).df_6_25 = (CohortSampler.sample cohort_6_25 g 2000).1 := rfl

lemma runScript_df_26_100 (g : Gen) (prev : Frame) :
    (runScript g prev).df_26_100 = (CohortSampler.sample cohort_26_100 g 4000).1 := rfl

lemma runScript_df_501_ (g : Gen) (prev : Frame) :
    (runScript g prev).df_501_ = (CohortSampler.sample cohort_501_ g 8000).1 := rfl

lemma runScript_pos3 (g : Gen) :
    (CohortSampler.sample cohort_26_100 g
      (CohortSampler.sample cohort_6_25 g
        (CohortSampler.sample cohort_1_5 g 0).2).2).2 = 6000 := rfl

lemma runScript_df_101_500_rows (g : Gen) (prev : Frame) :
    (runScript g prev).df_101_500.rows
      = (List.range 1000).map (mvnCohortRow g r_101_500 largeLabel 6000) := by
  show ((mkFrame _).setColConst Col.cohort (Cell.str largeLabel)).rows = _
  simp only [mkFrame, Frame.setColConst, npMultivariateNormal, List.map_map,
    runScript_pos3, num_samples]
  refine List.map_congr_left fun k _ => ?_
  funext col
  cases col <;> simp [mvnCohortRow, mkRow, Function.update, Function.comp]

lemma runScript_df_101_500_cols (g : Gen) (prev : Frame) :
    (runScript g prev).df_101_500.cols
      = [Col.job_sat, Col.int_qui, Col.age, Col.org_tnr, Col.cohort] := rfl

/-- The rows a frame contributes to pd.concat: null is filled in for result
columns the frame lacks. -/
def alignedRows (f : Frame) : List (Col → Cell) :=
  f.rows.map fun r c => if c ∈ f.cols then r c else Cell.null

lemma concat_rows (fs : List Frame) :
    (Frame.concat fs).rows = (fs.map alignedRows).flatten := rfl

lemma alignedRows_sample (c : Cohort) (g : Gen) (pos : Nat) :
    alignedRows (CohortSampler.sample c g pos).1
      = (List.range c.sampleCount).map (sampleRow g c pos) := by
  unfold alignedRows
  rw [sample_fst_rows, sample_fst_cols, List.map_map]
  refine List.map_congr_left fun k _ => ?_
  funext col
  cases col <;> simp [sampleRow]

lemma setColConst_mkFrame_cols (vs : List (Fin 4 → ℚ)) (x : Cell) :
    (Frame.setColConst (mkFrame vs) Col.cohort x).cols
      = [Col.job_sat, Col.int_qui, Col.age, Col.org_tnr, Col.cohort] := rfl

lemma alignedRows_d4 (g : Gen) :
    alignedRows (Frame.setColConst
        (mkFrame ((List.range 1000).map fun k => g.mvn mu r_101_500 (6000 + k)))
        Col.cohort (Cell.str largeLabel))
      = (List.range 1000).map (mvnCohortRow g r_101_500 largeLabel 6000) := by
  unfold alignedRows
  rw [setColConst_mkFrame_cols]
  simp only [Frame.setColConst, mkFrame, List.map_map]
  refine List.map_congr_left fun k _ => ?_
  funext col
  cases col <;> simp [mvnCohortRow, mkRow, Function.update, Function.comp]

set_option maxRecDepth 10000 in
lemma runScript_df (g : Gen) (prev : Frame) :
    (runScript g prev).df = Frame.concat
      [(CohortSampler.sample cohort_1_5 g 0).1,
       (CohortSampler.sample cohort_6_25 g 2000).1,
       (CohortSampler.sample cohort_26_100 g 4000).1,
       Frame.setColConst
         (mkFrame ((List.range 1000).map fun k => g.mvn mu r_101_500 (6000 + k)))
         Col.cohort (Cell.str largeLabel),
       (CohortSampler.sample cohort_501_ g 8000).1] := rfl

/-- The assembled dataset `df` row by row: 1000 micro rows, 1000 small-firm
rows labelled "large", 1000 medium rows, 1000 large-firm rows without a
firm size, 1000 very-large rows. -/
lemma runScript_df_rows (g : Gen) (prev : Frame) :
    (runScript g prev).df.rows
      = (List.range 1000).map (sampleRow g cohort_1_5 0)
        ++ ((List.range 1000).map (sampleRow g cohort_6_25 2000)
        ++ ((List.range 1000).map (sampleRow g cohort_26_100 4000)
        ++ ((List.range 1000).map (mvnCohortRow g r_101_500 largeLabel 6000)
        ++ (List.range 1000).map (sampleRow g cohort_501_ 8000)))) := by
  rw [runScript_df, concat_rows]
  simp only [List.map_cons, List.map_nil, List.flatten_cons, List.flatten_nil,
    List.append_nil, alignedRows_sample, alignedRows_d4]
  norm_num [cohort_1_5, cohort_6_25, cohort_26_100, cohort_501_, num_samples]

/-- A concrete generator state: every stream value is zero. -/
def genZero : Gen := { mvn := fun _ _ _ _ => 0, ints := fun _ => 0 }

/-- A concrete generator state whose integer stream is constantly one. -/
def genOne : Gen := { mvn := fun _ _ _ _ => 0, ints := fun _ => 1 }

/-- A concrete stand-in for the pre-existing `df_501_` frame. -/
def emptyFrame : Frame := { cols := [], rows := [] }

lemma concat_length_eq_sum (fs : List Frame) :
    (Frame.concat fs).rows.length = (fs.map fun f => f.rows.length).sum := by
  rw [concat_rows, List.length_flatten, List.map_map]
  congr 1
  refine List.map_congr_left fun f _ => ?_
  simp [alignedRows]

/-- C3 counterexample: for the empty sequence of per-cohort samples the
assembler returns no dataset at all — pd.concat([]) raises ValueError (no
objects to concatenate) — so there is no returned dataset whose length
could equal the (zero) sum of the input lengths, refuting the claim at the
empty partition it explicitly includes. -/
theorem assemble_empty_fails :
    DatasetAssembler.assemble ([] : List Frame) = none := rfl

/-- C3 amended: for every non-empty sequence of per-cohort samples,
DatasetAssembler.assemble returns a dataset whose length equals exactly
the sum of the lengths of the input samples; no row is dropped or added.
On the empty sequence it returns no dataset (pd.concat raises). -/
theorem assemble_some_length_eq_sum (fs : List Frame) (h : fs ≠ []) :
    ∃ d, DatasetAssembler.assemble fs = some d ∧
      d.rows.length = (fs.map fun f => f.rows.length).sum := by
  cases fs with
  | nil => exact absurd rfl h
  | cons a l =>
      exact ⟨Frame.concat (a :: l), rfl, concat_length_eq_sum (a :: l)⟩

/-- Modelled from the spec: the regression and visualization cells of the
notebook are empty placeholders, so the InteractionModel component of spec
section 4.3 is modelled from the spec text.  A fitted model holds the OLS
coefficients (intercept, focal and moderator main effects, interaction)
and the entries of the coefficient covariance matrix that simpleSlope
needs. -/
structure FittedModel where
  betaIntercept : ℚ
  betaFocal : ℚ
  betaModerator : ℚ
  betaInteraction : ℚ
  covFocalFocal : ℚ
  covFocalInteraction : ℚ
  covInteractionInteraction : ℚ

/-- Modelled from the spec: simpleSlope(moderatorValue) returns the
conditional effect of the focal predictor, betaFocal + betaInteraction *
moderatorValue, together with the delta-method variance of that slope,
covFF + 2 m covFI + m^2 covII, computed from the coefficient covariance
matrix.  The variance (the squared standard error) is returned so the
definition stays inside ℚ; the standard error is its square root. -/
def FittedModel.simpleSlope (fm : FittedModel) (m : ℚ) : ℚ × ℚ :=
  (fm.betaFocal + fm.betaInteraction * m,
   fm.covFocalFocal + 2 * m * fm.covFocalInteraction
     + m ^ 2 * fm.covInteractionInteraction)

/-- C8: for every fitted model, simpleSlope evaluated at moderator value 0
returns a slope equal to the fitted main-effect coefficient of the focal
predictor, since it computes betaFocal + betaInteraction * 0. -/
theorem simpleSlope_at_zero (fm : FittedModel) :
    (fm.simpleSlope 0).1 = fm.betaFocal := by
  simp [FittedModel.simpleSlope]

/-- C5 amended: CohortSampler.sample never fails; whatever the correlation
matrix, it returns exactly sampleCount observations (numpy with the default
check_valid="warn" at most warns on an invalid matrix, and no
InvalidSpecError exists anywhere in the notebook). -/
theorem sample_total_length (c : Cohort) (g : Gen) (pos : Nat) :
    (CohortSampler.sample c g pos).1.rows.length = c.sampleCount := by
  rw [sample_fst_rows]; simp

/-- A non-symmetric matrix used to exercise the invalid-spec path. -/
def r_asym : Matrix (Fin 4) (Fin 4) ℚ :=
  !![1, 0.5, 0, 0;
     -0.5, 1, 0, 0;
     0, 0, 1, 0;
     0, 0, 0, 1]

/-- A cohort whose correlation matrix is not symmetric. -/
def badCohort : Cohort :=
  { label := microLabel, firmSizeMin := 1, firmSizeMax := 5,
    correlationSpec := r_asym, sampleCount := 3 }

/-- C5 counterexample: for a non-symmetric correlation matrix the sampler
does not fail — it still returns a sequence of sampleCount observations,
refuting the claim that no sequence is returned for such matrices. -/
theorem sample_succeeds_on_asymmetric_matrix :
    ¬ r_asym.IsSymm ∧
    (CohortSampler.sample badCohort genZero 0).1.rows.length = 3 := by
  constructor
  · intro h
    have h01 := congrFun (congrFun h 0) 1
    simp [Matrix.transpose, r_asym, Matrix.IsSymm] at h01
    exact absurd h01 (by norm_num)
  · rw [sample_fst_rows]; rfl

/-- C1 evaluated at the failing input: the large-firms frame `df_101_500`
never receives a firm-size column (the notebook assigns the
randint(101, 500) draw to `df_501_` instead), so all of its 1000
observations carry a null firm size, violating the generation-time range
invariant for that cohort. -/
theorem df_101_500_lacks_firm_size (g : Gen) (prev : Frame) :
    Col.firm_size ∉ (runScript g prev).df_101_500.cols ∧
    ∀ r ∈ (runScript g prev).df_101_500.rows, r Col.firm_size = Cell.null := by
  constructor
  · rw [runScript_df_101_500_cols]; decide
  · rw [runScript_df_101_500_rows]
    intro r hr
    obtain ⟨k, _, rfl⟩ := List.mem_map.mp hr
    rfl

/-- C2 amended: DatasetAssembler.assemble (pd.concat) does not fail on a
schema mismatch; every row of every input frame appears in the output, and
a row coming from a frame that lacks one of the columns carries null (NaN)
in that column. -/
theorem assemble_fills_null_for_missing_fields (fs : List Frame) (f : Frame)
    (hf : f ∈ fs) (r : Col → Cell) (hr : r ∈ f.rows) (c : Col) (hc : c ∉ f.cols) :
    (fun c2 => if c2 ∈ f.cols then r c2 else Cell.null) ∈ (Frame.concat fs).rows ∧
    (fun c2 => if c2 ∈ f.cols then r c2 else Cell.null) c = Cell.null := by
  constructor
  · rw [concat_rows]
    exact List.mem_flatten.mpr
      ⟨alignedRows f, List.mem_map_of_mem _ hf, List.mem_map_of_mem _ hr⟩
  · exact if_neg hc

/-- A one-row frame carrying only the job-satisfaction column. -/
def oneColFrame : Frame :=
  { cols := [Col.job_sat], rows := [fun _ => Cell.null] }

/-- Witness for the amended C2 theorem at a concrete input. -/
theorem assemble_fills_null_witness :
    oneColFrame ∈ [oneColFrame] ∧ (fun _ => Cell.null) ∈ oneColFrame.rows ∧
    Col.firm_size ∉ oneColFrame.cols ∧
    ((fun c2 => if c2 ∈ oneColFrame.cols then (fun _ : Col => Cell.null) c2 else Cell.null)
        ∈ (Frame.concat [oneColFrame]).rows ∧
      (fun c2 => if c2 ∈ oneColFrame.cols then (fun _ : Col => Cell.null) c2 else Cell.null)
        Col.firm_size = Cell.null) :=
  ⟨List.mem_singleton.mpr rfl, List.mem_singleton.mpr rfl, by decide,
   assemble_fills_null_for_missing_fields [oneColFrame] oneColFrame
     (List.mem_singleton.mpr rfl) (fun _ => Cell.null) (List.mem_singleton.mpr rfl)
     Col.firm_size (by decide)⟩

/-- Witness for the amended C3 theorem at a concrete non-empty input. -/
theorem assemble_some_length_witness :
    ([oneColFrame] ≠ ([] : List Frame)) ∧
    ∃ d, DatasetAssembler.assemble [oneColFrame] = some d ∧
      d.rows.length = ([oneColFrame].map fun f => f.rows.length).sum :=
  ⟨List.cons_ne_nil _ _,
   assemble_some_length_eq_sum [oneColFrame] (List.cons_ne_nil _ _)⟩

/-- C2 counterexample: in the notebook run the large-firms frame has a
different column set than the others, yet assemble returns a combined
5000-row dataset with null firm sizes for that cohort instead of failing
with a SchemaMismatchError. -/
theorem assemble_silently_combines_mismatched_schemas :
    (runScript genZero emptyFrame).df_101_500.cols
        ≠ (runScript genZero emptyFrame).df_1_5.cols ∧
    (runScript genZero emptyFrame).df.rows.length = 5000 ∧
    ∃ r ∈ (runScript genZero emptyFrame).df.rows,
      r Col.firm_size = Cell.null ∧ r Col.cohort = Cell.str largeLabel := by
  refine ⟨?_, ?_, ?_⟩
  · rw [runScript_df_101_500_cols, runScript_df_1_5, sample_fst_cols]
    decide
  · rw [runScript_df_rows]
    simp
  · refine ⟨mvnCohortRow genZero r_101_500 largeLabel 6000 0, ?_, rfl, rfl⟩
    rw [runScript_df_rows]
    have h0 : mvnCohortRow genZero r_101_500 largeLabel 6000 0
        ∈ (List.range 1000).map (mvnCohortRow genZero r_101_500 largeLabel 6000) :=
      List.mem_map_of_mem _ (List.mem_range.mpr (by norm_num))
    exact List.mem_append_right _ (List.mem_append_right _
      (List.mem_append_right _ (List.mem_append_left _ h0)))

lemma rows_drop_1000 (g : Gen) (prev : Frame) :
    (runScript g prev).df.rows.drop 1000
      = (List.range 1000).map (sampleRow g cohort_6_25 2000)
        ++ ((List.range 1000).map (sampleRow g cohort_26_100 4000)
        ++ ((List.range 1000).map (mvnCohortRow g r_101_500 largeLabel 6000)
        ++ (List.range 1000).map (sampleRow g cohort_501_ 8000))) := by
  rw [runScript_df_rows]
  exact List.drop_left' (by simp)

lemma rows_drop_3000 (g : Gen) (prev : Frame) :
    (runScript g prev).df.rows.drop 3000
      = (List.range 1000).map (mvnCohortRow g r_101_500 largeLabel 6000)
        ++ (List.range 1000).map (sampleRow g cohort_501_ 8000) := by
  rw [runScript_df_rows, ← List.append_assoc, ← List.append_assoc]
  exact List.drop_left' (by simp)

lemma rows_drop_4000 (g : Gen) (prev : Frame) :
    (runScript g prev).df.rows.drop 4000
      = (List.range 1000).map (sampleRow g cohort_501_ 8000) := by
  rw [runScript_df_rows, ← List.append_assoc, ← List.append_assoc, ← List.append_assoc]
  exact List.drop_left' (by simp)

lemma rows_block_small (g : Gen) (prev : Frame) :
    ((runScript g prev).df.rows.drop 1000).take 1000
      = (List.range 1000).map (sampleRow g cohort_6_25 2000) := by
  rw [rows_drop_1000]
  exact List.take_left' (by simp)

lemma rows_block_large (g : Gen) (prev : Frame) :
    ((runScript g prev).df.rows.drop 3000).take 1000
      = (List.range 1000).map (mvnCohortRow g r_101_500 largeLabel 6000) := by
  rw [rows_drop_3000]
  exact List.take_left' (by simp)

/-- C10: the 1000 observations of the 101-500 cohort (rows 3000-3999 of
the assembled dataset) carry a null firm size; the very-large rows
(4000-4999) take their firm sizes from the randint call made after the
misassigned one (stream positions 9000 and up), all lying in [501, 2000);
and exactly 4000 of the 5000 assembled rows have a firm-size value. -/
theorem misassigned_firm_sizes (g : Gen) (prev : Frame) :
    (∀ r ∈ ((runScript g prev).df.rows.drop 3000).take 1000,
        r Col.cohort = Cell.str largeLabel ∧ r Col.firm_size = Cell.null) ∧
    (((runScript g prev).df.rows.drop 4000).map fun r => r Col.firm_size)
        = (List.range 1000).map
            (fun k => Cell.num ((501 + g.ints (9000 + k) % 1499 : Nat) : ℚ)) ∧
    (∀ r ∈ (runScript g prev).df.rows.drop 4000,
        ∃ u : Nat, r Col.firm_size = Cell.num (u : ℚ) ∧ 501 ≤ u ∧ u < 2000) ∧
    ((runScript g prev).df.rows.countP
        fun r => decide (r Col.firm_size ≠ Cell.null)) = 4000 := by
  have hsample : ∀ (c : Cohort) (pos : Nat),
      List.countP (fun r => decide (r Col.firm_size ≠ Cell.null))
        ((List.range 1000).map (sampleRow g c pos)) = 1000 := by
    intro c pos
    rw [List.countP_map]
    have h := List.countP_eq_length.mpr
      (fun (k : Nat) (_ : k ∈ List.range 1000) =>
        (rfl : ((fun r => decide (r Col.firm_size ≠ Cell.null)) ∘ sampleRow g c pos) k = true))
    rw [h]; simp
  refine ⟨?_, ?_, ?_, ?_⟩
  · rw [rows_block_large]
    intro r hr
    obtain ⟨k, _, rfl⟩ := List.mem_map.mp hr
    exact ⟨rfl, rfl⟩
  · rw [rows_drop_4000, List.map_map]
    rfl
  · rw [rows_drop_4000]
    intro r hr
    obtain ⟨k, _, rfl⟩ := List.mem_map.mp hr
    refine ⟨501 + g.ints (9000 + k) % 1499, rfl, Nat.le_add_right _ _, ?_⟩
    have hm : g.ints (9000 + k) % 1499 < 1499 := Nat.mod_lt _ (by norm_num)
    omega
  · rw [runScript_df_rows]
    rw [List.countP_append, List.countP_append, List.countP_append, List.countP_append]
    have hD : List.countP (fun r => decide (r Col.firm_size ≠ Cell.null))
        ((List.range 1000).map (mvnCohortRow g r_101_500 largeLabel 6000)) = 0 := by
      rw [List.countP_map]
      exact List.countP_eq_zero.mpr (fun k _ => by simp [Function.comp, mvnCohortRow])
    rw [hsample, hsample, hsample, hsample, hD]

/-- C9: cohort labels do not identify cohorts: no assembled row is
labelled "small"; exactly 2000 rows are labelled "large"; rows 1000-1999
(generated from the matrix with off-diagonal entry -0.30, firm sizes in
[6, 25)) and rows 3000-3999 (generated from the matrix with off-diagonal
entry -0.20) both carry the label "large". -/
theorem cohort_labels_ambiguous (g : Gen) (prev : Frame) :
    (∀ r ∈ (runScript g prev).df.rows, r Col.cohort ≠ Cell.str smallLabel) ∧
    ((runScript g prev).df.rows.countP
        fun r => decide (r Col.cohort = Cell.str largeLabel)) = 2000 ∧
    (∀ r ∈ ((runScript g prev).df.rows.drop 1000).take 1000,
        r Col.cohort = Cell.str largeLabel ∧
        ∃ u : Nat, r Col.firm_size = Cell.num (u : ℚ) ∧ 6 ≤ u ∧ u < 25) ∧
    (((runScript g prev).df.rows.drop 1000).take 1000).map (fun r => r Col.job_sat)
        = (List.range 1000).map (fun k => Cell.num (g.mvn mu r_6_25 (2000 + k) 0)) ∧
    r_6_25 0 1 = -0.30 ∧
    (∀ r ∈ ((runScript g prev).df.rows.drop 3000).take 1000,
        r Col.cohort = Cell.str largeLabel) ∧
    (((runScript g prev).df.rows.drop 3000).take 1000).map (fun r => r Col.job_sat)
        = (List.range 1000).map (fun k => Cell.num (g.mvn mu r_101_500 (6000 + k) 0)) ∧
    r_101_500 0 1 = -0.20 := by
  refine ⟨?_, ?_, ?_, ?_,
    by norm_num [r_6_25, Matrix.cons_val_zero, Matrix.cons_val_one, Matrix.head_cons], ?_, ?_,
    by norm_num [r_101_500, Matrix.cons_val_zero, Matrix.cons_val_one, Matrix.head_cons]⟩
  · rw [runScript_df_rows]
    intro r hr
    simp only [List.mem_append, List.mem_map, List.mem_range] at hr
    rcases hr with ⟨k, _, rfl⟩ | ⟨k, _, rfl⟩ | ⟨k, _, rfl⟩ | ⟨k, _, rfl⟩ | ⟨k, _, rfl⟩ <;>
      simp [sampleRow, mvnCohortRow, cohort_1_5, cohort_6_25, cohort_26_100, cohort_501_,
        microLabel, largeLabel, mediumLabel, veryLargeLabel, smallLabel]
  · rw [runScript_df_rows]
    rw [List.countP_append, List.countP_append, List.countP_append, List.countP_append]
    have hno : ∀ (c : Cohort) (pos : Nat), c.label = microLabel ∨ c.label = mediumLabel ∨
        c.label = veryLargeLabel →
        List.countP (fun r => decide (r Col.cohort = Cell.str largeLabel))
          ((List.range 1000).map (sampleRow g c pos)) = 0 := by
      intro c pos hl
      rw [List.countP_map]
      refine List.countP_eq_zero.mpr (fun k _ => ?_)
      rcases hl with h | h | h <;>
        simp [Function.comp, sampleRow, h, microLabel, mediumLabel, veryLargeLabel, largeLabel]
    have hyes : ∀ (c : Cohort) (pos : Nat), c.label = largeLabel →
        List.countP (fun r => decide (r Col.cohort = Cell.str largeLabel))
          ((List.range 1000).map (sampleRow g c pos)) = 1000 := by
      intro c pos hl
      rw [List.countP_map]
      refine Eq.trans (List.countP_eq_length.mpr ?_) (by simp)
      intro k _
      show decide (Cell.str c.label = Cell.str largeLabel) = true
      rw [hl]; decide
    have hD : List.countP (fun r => decide (r Col.cohort = Cell.str largeLabel))
        ((List.range 1000).map (mvnCohortRow g r_101_500 largeLabel 6000)) = 1000 := by
      rw [List.countP_map]
      refine Eq.trans (List.countP_eq_length.mpr ?_) (by simp)
      intro k _
      show decide (Cell.str largeLabel = Cell.str largeLabel) = true
      decide
    rw [hno cohort_1_5 0 (Or.inl rfl), hyes cohort_6_25 2000 rfl,
      hno cohort_26_100 4000 (Or.inr (Or.inl rfl)), hD,
      hno cohort_501_ 8000 (Or.inr (Or.inr rfl))]
  · rw [rows_block_small]
    intro r hr
    obtain ⟨k, _, rfl⟩ := List.mem_map.mp hr
    refine ⟨rfl, 6 + g.ints (3000 + k) % 19, rfl, Nat.le_add_right _ _, ?_⟩
    have hm : g.ints (3000 + k) % 19 < 19 := Nat.mod_lt _ (by norm_num)
    omega
  · rw [rows_block_small, List.map_map]
    rfl
  · rw [rows_block_large]
    intro r hr
    obtain ⟨k, _, rfl⟩ := List.mem_map.mp hr
    rfl
  · rw [rows_block_large, List.map_map]
    rfl

/-- The contract of CohortSampler.sample (spec section 4.1), at a cohort,
generator state and stream position: the frame has exactly sampleCount
rows; the four numeric fields of row k are the components of the k-th draw
of the multivariate-normal stream for mean `mu` and covariance
`correlationSpec`, and `mu` is identically zero; every firm size is an
integer in [firmSizeMin, firmSizeMax); the firm sizes are a function of
the integer stream alone and the numeric fields of the
multivariate-normal stream alone, so the firm-size overlay is not derived
from the correlated vector. -/
def SampleContract (c : Cohort) (g : Gen) (pos : Nat) : Prop :=
  (CohortSampler.sample c g pos).1.rows.length = c.sampleCount ∧
  (∀ i, mu i = 0) ∧
  ((CohortSampler.sample c g pos).1.rows.map
      (fun r => (r Col.job_sat, r Col.int_qui, r Col.age, r Col.org_tnr))
    = (List.range c.sampleCount).map (fun k =>
        (Cell.num (g.mvn mu c.correlationSpec (pos + k) 0),
         Cell.num (g.mvn mu c.correlationSpec (pos + k) 1),
         Cell.num (g.mvn mu c.correlationSpec (pos + k) 2),
         Cell.num (g.mvn mu c.correlationSpec (pos + k) 3)))) ∧
  (∀ r ∈ (CohortSampler.sample c g pos).1.rows,
    ∃ u : Nat, r Col.firm_size = Cell.num (u : ℚ) ∧
      c.firmSizeMin ≤ u ∧ u < c.firmSizeMax) ∧
  (∀ g2 : Gen, g2.ints = g.ints →
    (CohortSampler.sample c g2 pos).1.rows.map (fun r => r Col.firm_size)
      = (CohortSampler.sample c g pos).1.rows.map (fun r => r Col.firm_size)) ∧
  (∀ g2 : Gen, g2.mvn = g.mvn →
    (CohortSampler.sample c g2 pos).1.rows.map
        (fun r => (r Col.job_sat, r Col.int_qui, r Col.age, r Col.org_tnr))
      = (CohortSampler.sample c g pos).1.rows.map
        (fun r => (r Col.job_sat, r Col.int_qui, r Col.age, r Col.org_tnr)))

/-- C4: for every cohort, CohortSampler.sample draws exactly sampleCount
vectors from the multivariate-normal source with mean zero and covariance
cohort.correlationSpec, and independently draws sampleCount integers in
[firmSizeMin, firmSizeMax) as an overlay field not derived from the
correlated vector. -/
theorem cohortSampler_meets_contract (c : Cohort) (g : Gen) (pos : Nat)
    (h : c.firmSizeMin < c.firmSizeMax) : SampleContract c g pos := by
  refine ⟨?_, fun i => rfl, ?_, ?_, ?_, ?_⟩
  · rw [sample_fst_rows]; simp
  · rw [sample_fst_rows, List.map_map]; rfl
  · rw [sample_fst_rows]
    intro r hr
    obtain ⟨k, _, rfl⟩ := List.mem_map.mp hr
    refine ⟨c.firmSizeMin
        + g.ints (pos + c.sampleCount + k) % (c.firmSizeMax - c.firmSizeMin),
      rfl, Nat.le_add_right _ _, ?_⟩
    have hm : g.ints (pos + c.sampleCount + k) % (c.firmSizeMax - c.firmSizeMin)
        < c.firmSizeMax - c.firmSizeMin := Nat.mod_lt _ (by omega)
    omega
  · intro g2 hg
    rw [sample_fst_rows, sample_fst_rows, List.map_map, List.map_map]
    refine List.map_congr_left fun k _ => ?_
    show Cell.num ((c.firmSizeMin + g2.ints (pos + c.sampleCount + k)
        % (c.firmSizeMax - c.firmSizeMin) : Nat) : ℚ)
      = Cell.num ((c.firmSizeMin + g.ints (pos + c.sampleCount + k)
        % (c.firmSizeMax - c.firmSizeMin) : Nat) : ℚ)
    rw [hg]
  · intro g2 hg
    rw [sample_fst_rows, sample_fst_rows, List.map_map, List.map_map]
    refine List.map_congr_left fun k _ => ?_
    show (Cell.num (g2.mvn mu c.correlationSpec (pos + k) 0),
        Cell.num (g2.mvn mu c.correlationSpec (pos + k) 1),
        Cell.num (g2.mvn mu c.correlationSpec (pos + k) 2),
        Cell.num (g2.mvn mu c.correlationSpec (pos + k) 3))
      = (Cell.num (g.mvn mu c.correlationSpec (pos + k) 0),
        Cell.num (g.mvn mu c.correlationSpec (pos + k) 1),
        Cell.num (g.mvn mu c.correlationSpec (pos + k) 2),
        Cell.num (g.mvn mu c.correlationSpec (pos + k) 3))
    rw [hg]

/-- A small concrete cohort used to witness the sampler contract. -/
def witnessCohort : Cohort :=
  { label := microLabel, firmSizeMin := 1, firmSizeMax := 5,
    correlationSpec := r_1_5, sampleCount := 2 }

/-- Witness: the sampler contract holds at a concrete cohort, generator
state and stream position. -/
theorem cohortSampler_meets_contract_witness :
    witnessCohort.firmSizeMin < witnessCohort.firmSizeMax ∧
    SampleContract witnessCohort genZero 0 :=
  ⟨by decide, cohortSampler_meets_contract witnessCohort genZero 0 (by decide)⟩

/-- C6 amended: with the numpy global generator state modelled explicitly,
the notebook run is a deterministic function of that state alone — in
particular the pre-existing `df_501_` frame, the only other ambient value
the script touches (through the misassigned firm-size write), has no
influence on any produced frame or on the assembled dataset, and two runs
from the same global state produce identical results.  The generator
itself, however, is the implicit numpy module-level state (np.random.*),
not an explicitly supplied argument, and the notebook sets no seed. -/
theorem script_determined_by_global_state (g : Gen) (prev1 prev2 : Frame) :
    runScript g prev1 = runScript g prev2 := rfl

/-- C6 counterexample: the dataset produced by the notebook varies with
the implicit numpy global state, which no caller supplies and no seed
pins, so identical observation sequences across runs are not guaranteed:
two admissible global states yield different data. -/
theorem script_output_varies_with_global_state :
    runScript genZero emptyFrame ≠ runScript genOne emptyFrame := by
  intro h
  have hrows : (runScript genZero emptyFrame).df_1_5.rows
      = (runScript genOne emptyFrame).df_1_5.rows := by rw [h]
  rw [runScript_df_1_5, runScript_df_1_5, sample_fst_rows, sample_fst_rows] at hrows
  have h0 := List.map_inj_left.mp hrows 0 (List.mem_range.mpr (by decide))
  have hcell := congrFun h0 Col.firm_size
  simp [sampleRow, genZero, genOne, cohort_1_5] at hcell

/-- The common shape of the five hard-coded matrices: they differ only in
the job-satisfaction / intent-to-quit entry `c`. -/
def corrPattern (c : ℚ) : Matrix (Fin 4) (Fin 4) ℚ :=
  !![1.00, c, -0.03, 0.11;
     c, 1.00, -0.05, -0.09;
     -0.03, -0.05, 1.00, 0.05;
     0.11, -0.09, 0.05, 1.00]

/-- The rational correlation matrices viewed over the reals, where the
Mathlib spectral theory of Hermitian matrices applies. -/
def matR (rq : Matrix (Fin 4) (Fin 4) ℚ) : Matrix (Fin 4) (Fin 4) ℝ :=
  rq.map fun q => (q : ℝ)

/-- CorrelationSpec validity (spec section 3): every diagonal entry is
1.0, the matrix is symmetric, and — over ℝ — it is positive semi-definite
with all eigenvalues non-negative. -/
def ValidCorrelationSpec (rq : Matrix (Fin 4) (Fin 4) ℚ) : Prop :=
  (∀ i, rq i i = 1) ∧ rq.IsSymm ∧ (matR rq).PosSemidef ∧
  ∀ (h : (matR rq).IsHermitian), ∀ i, 0 ≤ h.eigenvalues i

lemma corrPattern_diag (c : ℚ) : ∀ i, corrPattern c i i = 1 := by
  intro i
  fin_cases i <;> norm_num [corrPattern]

lemma corrPattern_isSymm (c : ℚ) : (corrPattern c).IsSymm := by
  ext i j
  fin_cases i <;> fin_cases j <;>
    simp [corrPattern, Matrix.transpose_apply]

lemma matR_isHermitian {rq : Matrix (Fin 4) (Fin 4) ℚ} (h : rq.IsSymm) :
    (matR rq).IsHermitian := by
  ext i j
  have hij : rq j i = rq i j := congrFun (congrFun h i) j
  simp [matR, Matrix.conjTranspose_apply, Matrix.map_apply]
  exact_mod_cast hij

lemma corrPattern_posSemidef (c : ℚ) (h1 : -2/5 ≤ c) (h2 : c ≤ 0) :
    (matR (corrPattern c)).PosSemidef := by
  refine ⟨matR_isHermitian (corrPattern_isSymm c), fun x => ?_⟩
  have h1r : (-2/5 : ℝ) ≤ (c : ℝ) := by exact_mod_cast h1
  have h2r : (c : ℝ) ≤ 0 := by exact_mod_cast h2
  simp [Matrix.dotProduct, Matrix.mulVec, Fin.sum_univ_four, Matrix.vecHead,
    Matrix.vecTail, Matrix.map_apply, matR, corrPattern]
  nlinarith [sq_nonneg (x 0 - x 2), sq_nonneg (x 0 + x 3), sq_nonneg (x 1 - x 2),
    sq_nonneg (x 1 - x 3), sq_nonneg (x 2 + x 3), sq_nonneg (x 0), sq_nonneg (x 1),
    sq_nonneg (x 2), sq_nonneg (x 3),
    mul_nonneg (neg_nonneg.mpr h2r) (sq_nonneg (x 0 - x 1)),
    mul_nonneg (by linarith : (0:ℝ) ≤ (c : ℝ) + 2/5) (sq_nonneg (x 0)),
    mul_nonneg (by linarith : (0:ℝ) ≤ (c : ℝ) + 2/5) (sq_nonneg (x 1))]

lemma corrPattern_valid (c : ℚ) (h1 : -2/5 ≤ c) (h2 : c ≤ 0) :
    ValidCorrelationSpec (corrPattern c) := by
  refine ⟨corrPattern_diag c, corrPattern_isSymm c, corrPattern_posSemidef c h1 h2, ?_⟩
  intro h i
  exact (corrPattern_posSemidef c h1 h2).eigenvalues_nonneg i

/-- C7: each of the five hard-coded per-cohort correlation matrices has
unit diagonal, is symmetric, and has only non-negative eigenvalues
(positive semi-definite). -/
theorem correlation_specs_valid :
    ∀ rq ∈ correlationSpecs, ValidCorrelationSpec rq := by
  intro rq hr
  simp only [correlationSpecs, List.mem_cons, List.not_mem_nil, or_false] at hr
  rcases hr with rfl | rfl | rfl | rfl | rfl
  · exact corrPattern_valid (-0.40) (by norm_num) (by norm_num)
  · exact corrPattern_valid (-0.30) (by norm_num) (by norm_num)
  · exact corrPattern_valid (-0.25) (by norm_num) (by norm_num)
  · exact corrPattern_valid (-0.20) (by norm_num) (by norm_num)
  · exact corrPattern_valid (-0.15) (by norm_num) (by norm_num)

/-- Witness: the micro-firms correlation matrix is in the list and valid. -/
theorem correlation_specs_valid_witness :
    r_1_5 ∈ correlationSpecs ∧ ValidCorrelationSpec r_1_5 :=
  ⟨List.mem_cons_self _ _,
   correlation_specs_valid r_1_5 (List.mem_cons_self _ _)⟩
